import Mathlib

/-!
# Bond yield calculator — verification of the calculation core

Shallow embedding of `backend/src/bond/bond-calculation.ts`.  JavaScript
numbers are modelled as exact rationals (`ℚ`) extended with the three
non-finite values (`NaN`, `±Infinity`); all arithmetic performed by the
calculation core on validated inputs is modelled exactly in `ℚ`.  The
wall-clock / `Date`-parsing effects of the source (`new Date()`,
`new Date(string)`) are abstracted into an explicit `settlement : CalDate`
argument and a `validDate : String → Bool` parameter, as the repository's
design notes themselves prescribe ("isolate it behind an injectable clock
capability").  Time-of-day and timezone of JS `Date` values are abstracted:
only the calendar date (year, month, day) is modelled, which is all the
source ever surfaces (`toISOString().slice(0, 10)`).
-/

namespace BondYield

/-- A JavaScript number: either a finite value (modelled exactly as a
rational) or one of the non-finite values.  A malformed non-numeric field of
a caller-supplied payload behaves, under `Number.isFinite`, exactly like a
non-finite number, so `nan` also stands for such junk values. -/
inductive JSNum where
  | nan : JSNum
  | posInf : JSNum
  | negInf : JSNum
  | num : ℚ → JSNum
deriving DecidableEq

/-- `Number.isFinite`. -/
def JSNum.isFinite : JSNum → Bool
  | .num _ => true
  | _ => false

/-- The rational value of a finite JS number (junk value `0` on the
non-finite values, which every use below guards with `isFinite`). -/
def JSNum.toQ : JSNum → ℚ
  | .num q => q
  | _ => 0

/-- `Number.EPSILON` = 2⁻⁵². -/
def jsEpsilon : ℚ := 1 / 2 ^ 52

/-- JS `Math.round` on a finite value: the nearest integer, with ties
resolved toward +∞, i.e. `⌊x + 1/2⌋`. -/
def jsRound (x : ℚ) : ℤ := ⌊x + 1 / 2⌋

/-- `round2` from bond-calculation.ts:
`Math.round((value + Number.EPSILON) * 100) / 100`. -/
def round2 (value : ℚ) : ℚ := (jsRound ((value + jsEpsilon) * 100) : ℚ) / 100

/-- `round6` from bond-calculation.ts:
`Math.round((value + Number.EPSILON) * 1_000_000) / 1_000_000`. -/
def round6 (value : ℚ) : ℚ :=
  (jsRound ((value + jsEpsilon) * 1000000) : ℚ) / 1000000

/-- A calendar date, with the month 0-based as in JS `Date` (0 = January). -/
structure CalDate where
  year : ℤ
  month : ℕ
  day : ℕ
deriving DecidableEq

/-- Gregorian leap year, as implemented by JS `Date`. -/
def isLeapYear (y : ℤ) : Bool :=
  decide ((y % 4 = 0 ∧ ¬y % 100 = 0) ∨ y % 400 = 0)

/-- Number of days in a (0-based) month, the value of
`new Date(year, month + 1, 0).getDate()` in the source. -/
def daysInMonth (y : ℤ) (m : ℕ) : ℕ :=
  if m = 1 then (if isLeapYear y then 29 else 28)
  else if m = 3 ∨ m = 5 ∨ m = 8 ∨ m = 10 then 30
  else 31

/-- `addMonthsClamped` from bond-calculation.ts: set the day to 1, advance
the (normalizing) month counter, then clamp the original day-of-month to the
last valid day of the target month. -/
def addMonthsClamped (d : CalDate) (months : ℕ) : CalDate :=
  let total := d.month + months
  let y := d.year + (total / 12 : ℕ)
  let m := total % 12
  { year := y, month := m, day := min d.day (daysInMonth y m) }

/-- Two-digit zero padding of `toISOString` date components. -/
def pad2 (n : ℕ) : String := if n < 10 then "0" ++ toString n else toString n

/-- Four-digit zero padding of the `toISOString` year component. -/
def pad4 (n : ℕ) : String :=
  if n < 10 then "000" ++ toString n
  else if n < 100 then "00" ++ toString n
  else if n < 1000 then "0" ++ toString n
  else toString n

/-- `date.toISOString().slice(0, 10)`: the date as `YYYY-MM-DD` (the
0-based month is printed 1-based). -/
def toISODate (d : CalDate) : String :=
  pad4 d.year.toNat ++ "-" ++ pad2 (d.month + 1) ++ "-" ++ pad2 d.day

/-- `BondCalculationInput` (bond-calculation.ts lines 3–10).  The numeric
fields are caller-supplied and possibly malformed, hence `JSNum`; the
frequency is likewise possibly malformed, hence an arbitrary `String`
(the validator checks membership in the two-value enum). -/
structure BondCalculationInput where
  faceValue : JSNum
  annualCouponRatePct : JSNum
  marketPrice : JSNum
  yearsToMaturity : JSNum
  couponFrequency : String
  settlementDate : Option String
deriving DecidableEq

/-- `CashFlowRow` (bond-calculation.ts lines 12–18). -/
structure CashFlowRow where
  period : ℕ
  paymentDate : String
  couponPayment : ℚ
  cumulativeInterest : ℚ
  remainingPrincipal : ℚ
deriving DecidableEq

/-- The `tradingStatus` enum of the result. -/
inductive TradingStatus where
  | premium : TradingStatus
  | discount : TradingStatus
  | par : TradingStatus
deriving DecidableEq

/-- `BondCalculationResult` (bond-calculation.ts lines 20–31). -/
structure BondCalculationResult where
  inputs : BondCalculationInput
  annualCouponAmount : ℚ
  couponPayment : ℚ
  totalPeriods : ℤ
  currentYieldPct : ℚ
  ytmPct : ℚ
  totalInterestEarned : ℚ
  tradingStatus : TradingStatus
  premiumDiscountAmount : ℚ
  cashFlowSchedule : List CashFlowRow
deriving DecidableEq

/-- The field names declared by the `BondCalculationResult` interface
(bond-calculation.ts lines 20–31), in source order.  This reflects the
shape of every record `calculateBondMetrics` can return. -/
def bondCalculationResultFields : List String :=
  ["inputs", "annualCouponAmount", "couponPayment", "totalPeriods",
   "currentYieldPct", "ytmPct", "totalInterestEarned", "tradingStatus",
   "premiumDiscountAmount", "cashFlowSchedule"]

/-- The running sum `Σ_{t=1..n} C/(1+y)^t` of the coupon loop in
`priceFromPeriodicYield`. -/
def pvCoupons (periodicYield couponPayment : ℚ) : ℕ → ℚ
  | 0 => 0
  | t + 1 => pvCoupons periodicYield couponPayment t
      + couponPayment / (1 + periodicYield) ^ (t + 1)

/-- `priceFromPeriodicYield` (bond-calculation.ts lines 50–64): closed-form
present value, with the degenerate form `C*n + F` when `|y| < 1e-12`. -/
def priceFromPeriodicYield (periodicYield couponPayment faceValue : ℚ)
    (periods : ℕ) : ℚ :=
  if |periodicYield| < 1 / 10 ^ 12 then
    couponPayment * periods + faceValue
  else
    pvCoupons periodicYield couponPayment periods
      + faceValue / (1 + periodicYield) ^ periods

/-- The running sum `Σ_{t=1..n} (-t·C)/(1+y)^(t+1)` of the coupon loop in
`derivativePriceFromPeriodicYield`. -/
def derivCoupons (periodicYield couponPayment : ℚ) : ℕ → ℚ
  | 0 => 0
  | t + 1 => derivCoupons periodicYield couponPayment t
      + (-((t : ℚ) + 1) * couponPayment) / (1 + periodicYield) ^ (t + 2)

/-- `derivativePriceFromPeriodicYield` (bond-calculation.ts lines 66–78). -/
def derivativePriceFromPeriodicYield
    (periodicYield couponPayment faceValue : ℚ) (periods : ℕ) : ℚ :=
  derivCoupons periodicYield couponPayment periods
    + (-(periods : ℚ) * faceValue) / (1 + periodicYield) ^ (periods + 1)

/-- The Newton-Raphson phase of `solvePeriodicYtm` (source loop of 50
iterations), fuel-indexed.  `some r` is an early `return r` of the source;
`none` is a `break` or loop exhaustion, after which the source falls
through to bisection.  The source's `!Number.isFinite` guards cannot fire
in the exact-rational model on reachable states (every evaluation point
keeps `1 + x > 0`, see the solver range theorem below), so only the
magnitude guards are modelled. -/
def newtonIter (marketPrice couponPayment faceValue : ℚ) (periods : ℕ) :
    ℕ → ℚ → Option ℚ
  | 0, _ => none
  | fuel + 1, x =>
    let fx := priceFromPeriodicYield x couponPayment faceValue periods
        - marketPrice
    if |fx| < 1 / 10 ^ 10 then some x
    else
      let dfx := derivativePriceFromPeriodicYield x couponPayment faceValue
          periods
      if |dfx| < 1 / 10 ^ 12 then none
      else
        let next := x - fx / dfx
        if next ≤ -(999999 / 1000000 : ℚ) ∨ 10 < next then none
        else if |next - x| < 1 / 10 ^ 12 then some next
        else newtonIter marketPrice couponPayment faceValue periods fuel next

/-- The bracket-expansion `while` loop of `solvePeriodicYtm`: while the
residuals at both bracket ends share a sign and fewer than 20 expansions
have happened, double `high`.  Returns the final `high`. -/
def expandLoop (marketPrice couponPayment faceValue : ℚ) (periods : ℕ)
    (fLow : ℚ) : ℕ → ℚ → ℚ → ℚ
  | 0, high, _ => high
  | fuel + 1, high, fHigh =>
    if 0 < fLow * fHigh then
      let high2 := 2 * high
      expandLoop marketPrice couponPayment faceValue periods fLow fuel high2
        (priceFromPeriodicYield high2 couponPayment faceValue periods
          - marketPrice)
    else high

/-- The 200-iteration bisection loop of `solvePeriodicYtm`, fuel-indexed;
when the fuel runs out the source returns the midpoint of the final
bracket. -/
def bisectLoop (marketPrice couponPayment faceValue : ℚ) (periods : ℕ) :
    ℕ → ℚ → ℚ → ℚ → ℚ
  | 0, low, high, _ => (low + high) / 2
  | fuel + 1, low, high, fLow =>
    let mid := (low + high) / 2
    let fMid := priceFromPeriodicYield mid couponPayment faceValue periods
        - marketPrice
    if |fMid| < 1 / 10 ^ 10 then mid
    else if fLow * fMid ≤ 0 then
      bisectLoop marketPrice couponPayment faceValue periods fuel low mid fLow
    else
      bisectLoop marketPrice couponPayment faceValue periods fuel mid high fMid

/-- `solvePeriodicYtm` (bond-calculation.ts lines 81–130): Newton-Raphson
from the initial guess `max(-0.95, couponRateDecimal / frequencyPerYear)`,
falling back to bracket expansion plus bisection on `[-0.99, high]`. -/
def solvePeriodicYtm (marketPrice couponPayment faceValue : ℚ)
    (periods : ℕ) (frequencyPerYear couponRateDecimal : ℚ) : ℚ :=
  let x0 := max (-(19 / 20 : ℚ)) (couponRateDecimal / frequencyPerYear)
  match newtonIter marketPrice couponPayment faceValue periods 50 x0 with
  | some r => r
  | none =>
    let low : ℚ := -(99 / 100)
    let fLow := priceFromPeriodicYield low couponPayment faceValue periods
        - marketPrice
    let fHigh := priceFromPeriodicYield 1 couponPayment faceValue periods
        - marketPrice
    let high := expandLoop marketPrice couponPayment faceValue periods fLow
        20 1 fHigh
    bisectLoop marketPrice couponPayment faceValue periods 200 low high fLow

/-- Rule 1 of `validateBondInput`: `Number.isFinite(faceValue) &&
!(faceValue <= 0)`. -/
def faceValueOk (input : BondCalculationInput) : Bool :=
  input.faceValue.isFinite && decide (0 < input.faceValue.toQ)

/-- Rule 2: coupon rate finite and `≥ 0`. -/
def couponRateOk (input : BondCalculationInput) : Bool :=
  input.annualCouponRatePct.isFinite
    && decide (0 ≤ input.annualCouponRatePct.toQ)

/-- Rule 3: market price finite and `> 0`. -/
def marketPriceOk (input : BondCalculationInput) : Bool :=
  input.marketPrice.isFinite && decide (0 < input.marketPrice.toQ)

/-- Rule 4: years to maturity finite and `> 0`. -/
def yearsOk (input : BondCalculationInput) : Bool :=
  input.yearsToMaturity.isFinite && decide (0 < input.yearsToMaturity.toQ)

/-- Rule 5: `['annual', 'semi-annual'].includes(couponFrequency)`. -/
def frequencyOk (input : BondCalculationInput) : Bool :=
  input.couponFrequency == "annual" || input.couponFrequency == "semi-annual"

/-- Rule 6, exactly as the source evaluates it:
`input.settlementDate && isNaN(new Date(input.settlementDate).getTime())`
pushes the error, so the rule passes when the date is absent, is the empty
string (falsy, skipped by the `&&` truthiness test), or parses.  The JS
`Date` parser is abstracted as `validDate`. -/
def settlementOk (validDate : String → Bool)
    (input : BondCalculationInput) : Bool :=
  match input.settlementDate with
  | none => true
  | some s => s == "" || validDate s

/-- `validateBondInput` (bond-calculation.ts lines 132–153): the six rule
checks, each pushing its message independently, in source order. -/
def validateBondInput (validDate : String → Bool)
    (input : BondCalculationInput) : List String :=
  (if faceValueOk input then [] else ["Face value must be positive."])
    ++ (if couponRateOk input then []
        else ["Annual coupon rate must be zero or greater."])
    ++ (if marketPriceOk input then [] else ["Market price must be positive."])
    ++ (if yearsOk input then [] else ["Years to maturity must be positive."])
    ++ (if frequencyOk input then []
        else ["Coupon frequency must be annual or semi-annual."])
    ++ (if settlementOk validDate input then []
        else ["Settlement date is invalid."])

/-- The six violation messages the validator can ever emit, in rule order. -/
def validatorMessages : List String :=
  ["Face value must be positive.",
   "Annual coupon rate must be zero or greater.",
   "Market price must be positive.",
   "Years to maturity must be positive.",
   "Coupon frequency must be annual or semi-annual.",
   "Settlement date is invalid."]

/-- `frequencyPerYear` local of `calculateBondMetrics`:
`couponFrequency === 'annual' ? 1 : 2`. -/
def frequencyPerYearOf (input : BondCalculationInput) : ℚ :=
  if input.couponFrequency = "annual" then 1 else 2

/-- `totalPeriods` local of `calculateBondMetrics`:
`Math.round(yearsToMaturity * frequencyPerYear)`. -/
def totalPeriodsOf (input : BondCalculationInput) : ℤ :=
  jsRound (input.yearsToMaturity.toQ * frequencyPerYearOf input)

/-- `couponRateDecimal` local: `annualCouponRatePct / 100`. -/
def couponRateDecimalOf (input : BondCalculationInput) : ℚ :=
  input.annualCouponRatePct.toQ / 100

/-- `annualCouponAmount` local: `faceValue * couponRateDecimal`. -/
def annualCouponAmountOf (input : BondCalculationInput) : ℚ :=
  input.faceValue.toQ * couponRateDecimalOf input

/-- `couponPayment` local: `annualCouponAmount / frequencyPerYear`. -/
def couponPaymentOf (input : BondCalculationInput) : ℚ :=
  annualCouponAmountOf input / frequencyPerYearOf input

/-- The solved periodic yield of `calculateBondMetrics`: `solvePeriodicYtm`
applied to the request's derived quantities. -/
def periodicYtmOf (input : BondCalculationInput) : ℚ :=
  solvePeriodicYtm input.marketPrice.toQ (couponPaymentOf input)
    input.faceValue.toQ (totalPeriodsOf input).toNat
    (frequencyPerYearOf input) (couponRateDecimalOf input)

/-- `monthsPerPeriod` local: `12 / frequencyPerYear`, i.e. 12 for annual
and 6 for semi-annual coupons. -/
def monthsPerPeriodOf (input : BondCalculationInput) : ℕ :=
  if input.couponFrequency = "annual" then 12 else 6

/-- The `Array.from({length: totalPeriods}, ...)` schedule loop of
`calculateBondMetrics`, with the running `cumulativeInterest += couponPayment`
accumulator threaded explicitly.  `remaining` counts the rows still to
build, `index` is the source's 0-based `index`, `cumulative` the running
sum before this row's coupon is added. -/
def buildRows (settlement : CalDate) (couponPayment faceValue : ℚ)
    (monthsPerPeriod totalPeriods : ℕ) :
    ℕ → ℕ → ℚ → List CashFlowRow
  | 0, _, _ => []
  | remaining + 1, index, cumulative =>
    let period := index + 1
    let cumulative2 := cumulative + couponPayment
    { period := period
      paymentDate := toISODate (addMonthsClamped settlement
        (monthsPerPeriod * period))
      couponPayment := round2 couponPayment
      cumulativeInterest := round2 cumulative2
      remainingPrincipal :=
        if period = totalPeriods then 0 else round2 faceValue } ::
      buildRows settlement couponPayment faceValue monthsPerPeriod
        totalPeriods remaining period cumulative2

/-- The result record built by `calculateBondMetrics` once the period-count
guard has passed (bond-calculation.ts lines 160–207). -/
def buildResult (settlement : CalDate)
    (input : BondCalculationInput) : BondCalculationResult :=
  { inputs := { input with settlementDate := some (toISODate settlement) }
    annualCouponAmount := round2 (annualCouponAmountOf input)
    couponPayment := round2 (couponPaymentOf input)
    totalPeriods := totalPeriodsOf input
    currentYieldPct :=
      round6 (annualCouponAmountOf input / input.marketPrice.toQ * 100)
    ytmPct := round6 (periodicYtmOf input * frequencyPerYearOf input * 100)
    totalInterestEarned :=
      round2 (couponPaymentOf input * ((totalPeriodsOf input : ℤ) : ℚ))
    tradingStatus :=
      if 0 < input.marketPrice.toQ - input.faceValue.toQ then
        TradingStatus.premium
      else if input.marketPrice.toQ - input.faceValue.toQ < 0 then
        TradingStatus.discount
      else TradingStatus.par
    premiumDiscountAmount :=
      round2 (input.marketPrice.toQ - input.faceValue.toQ)
    cashFlowSchedule :=
      buildRows settlement (couponPaymentOf input) input.faceValue.toQ
        (monthsPerPeriodOf input) (totalPeriodsOf input).toNat
        (totalPeriodsOf input).toNat 0 0 }

/-- `calculateBondMetrics` (bond-calculation.ts lines 155–208).  The
source's `throw new Error(...)` on a degenerate period count is modelled as
`Except.error`; the resolved settlement date (parsed input date or the
wall clock) is the explicit `settlement` argument. -/
def calculateBondMetrics (settlement : CalDate)
    (input : BondCalculationInput) : Except String BondCalculationResult :=
  if totalPeriodsOf input ≤ 0 then
    Except.error "Total periods must be at least 1."
  else Except.ok (buildResult settlement input)

end BondYield

namespace BondYield

/-- The validator accepts exactly when each of the six rules passes. -/
lemma validateBondInput_eq_nil_iff (validDate : String → Bool)
    (input : BondCalculationInput) :
    validateBondInput validDate input = [] ↔
      (faceValueOk input = true ∧ couponRateOk input = true ∧
       marketPriceOk input = true ∧ yearsOk input = true ∧
       frequencyOk input = true ∧ settlementOk validDate input = true) := by
  unfold validateBondInput
  cases faceValueOk input <;> cases couponRateOk input <;>
    cases marketPriceOk input <;> cases yearsOk input <;>
    cases frequencyOk input <;> cases settlementOk validDate input <;> simp

/-- Once the period-count guard has passed, `calculateBondMetrics` returns
the built result record. -/
lemma calculateBondMetrics_ok (settlement : CalDate)
    (input : BondCalculationInput) (h : 0 < totalPeriodsOf input) :
    calculateBondMetrics settlement input =
      Except.ok (buildResult settlement input) := by
  unfold calculateBondMetrics
  rw [if_neg (not_le.mpr h)]

/-- Closed form of the schedule loop: row `i` (0-based) of the remaining
block carries period `index + i + 1` and cumulative interest
`cum + (i+1)·couponPayment`. -/
lemma buildRows_eq_map (s : CalDate) (cp fv : ℚ) (mpp N : ℕ) :
    ∀ (rem index : ℕ) (cum : ℚ),
      buildRows s cp fv mpp N rem index cum =
        (List.range rem).map fun i =>
          { period := index + i + 1
            paymentDate := toISODate (addMonthsClamped s
              (mpp * (index + i + 1)))
            couponPayment := round2 cp
            cumulativeInterest := round2 (cum + ((i : ℚ) + 1) * cp)
            remainingPrincipal :=
              if index + i + 1 = N then 0 else round2 fv } := by
  intro rem
  induction rem with
  | zero => intro index cum; rfl
  | succ n ih =>
    intro index cum
    rw [List.range_succ_eq_map, List.map_cons, List.map_map]
    simp only [buildRows]
    rw [ih (index + 1) (cum + cp)]
    congr 1
    · have h2 : cum + cp = cum + (((0 : ℕ) : ℚ) + 1) * cp := by push_cast; ring
      rw [h2]
    · refine List.map_congr_left ?_
      intro i _
      simp only [Function.comp_apply]
      have h1 : index + 1 + i + 1 = index + (i + 1) + 1 := by omega
      have h2 : cum + cp + ((i : ℚ) + 1) * cp =
          cum + (((i + 1 : ℕ) : ℚ) + 1) * cp := by push_cast; ring
      rw [h1, h2]

/-- The schedule of the built result, in closed form. -/
lemma buildResult_schedule (settlement : CalDate)
    (input : BondCalculationInput) :
    (buildResult settlement input).cashFlowSchedule =
      (List.range (totalPeriodsOf input).toNat).map fun i =>
        { period := i + 1
          paymentDate := toISODate (addMonthsClamped settlement
            (monthsPerPeriodOf input * (i + 1)))
          couponPayment := round2 (couponPaymentOf input)
          cumulativeInterest :=
            round2 (((i : ℚ) + 1) * couponPaymentOf input)
          remainingPrincipal :=
            if i + 1 = (totalPeriodsOf input).toNat then 0
            else round2 input.faceValue.toQ } := by
  show buildRows settlement (couponPaymentOf input) input.faceValue.toQ
      (monthsPerPeriodOf input) (totalPeriodsOf input).toNat
      (totalPeriodsOf input).toNat 0 0 = _
  rw [buildRows_eq_map]
  refine List.map_congr_left ?_
  intro i _
  have h1 : 0 + i + 1 = i + 1 := by omega
  have h2 : (0 : ℚ) + ((i : ℚ) + 1) * couponPaymentOf input =
      ((i : ℚ) + 1) * couponPaymentOf input := by ring
  rw [h1, h2]

/-- `round2` is monotone. -/
lemma round2_mono {a b : ℚ} (h : a ≤ b) : round2 a ≤ round2 b := by
  unfold round2 jsRound
  have hf : (⌊(a + jsEpsilon) * 100 + 1 / 2⌋ : ℤ) ≤
      ⌊(b + jsEpsilon) * 100 + 1 / 2⌋ :=
    Int.floor_le_floor (by linarith)
  have : ((⌊(a + jsEpsilon) * 100 + 1 / 2⌋ : ℤ) : ℚ) ≤
      ((⌊(b + jsEpsilon) * 100 + 1 / 2⌋ : ℤ) : ℚ) := by exact_mod_cast hf
  linarith

/-- A validated input has a non-negative per-period coupon payment. -/
lemma couponPaymentOf_nonneg (validDate : String → Bool)
    (input : BondCalculationInput)
    (h : validateBondInput validDate input = []) :
    0 ≤ couponPaymentOf input := by
  rw [validateBondInput_eq_nil_iff] at h
  obtain ⟨h1, h2, -, -, -, -⟩ := h
  have hf : 0 < input.faceValue.toQ := by
    unfold faceValueOk at h1
    simp only [Bool.and_eq_true, decide_eq_true_eq] at h1
    exact h1.2
  have hr : 0 ≤ input.annualCouponRatePct.toQ := by
    unfold couponRateOk at h2
    simp only [Bool.and_eq_true, decide_eq_true_eq] at h2
    exact h2.2
  unfold couponPaymentOf annualCouponAmountOf couponRateDecimalOf
    frequencyPerYearOf
  split
  · positivity
  · positivity

end BondYield

namespace BondYield

section

-- Batteries marks the rational-number operations irreducible; concrete
-- evaluation of the embedded program inside `decide` proofs needs them
-- unfolded.
attribute [local semireducible] Rat.add Rat.sub Rat.mul Rat.inv

/-- A fixed reference settlement date (2026-02-23, the date the
repository's own tests use), standing for the injected clock/parsed date. -/
def refDate : CalDate := ⟨2026, 1, 23⟩

/-- The payload of the repository's integration test for
`POST /bond/calculate`: face 1000, rate 5 %, price 950, 10 years,
semi-annual coupons. -/
def integrationTestInput : BondCalculationInput :=
  ⟨.num 1000, .num 5, .num 950, .num 10, "semi-annual", some "2026-02-23"⟩

/-- C1: the spec (and the repository's own ARCHITECTURE.md, integration
test and frontend) require a result field `effectiveAnnualYieldPct =
((1 + periodicYield)^frequency − 1) × 100`, but the
`BondCalculationResult` record produced by `calculateBondMetrics` has no
such field at all — even though the calculation succeeds on the
integration test's own payload. -/
theorem c1_effectiveAnnualYieldPct_missing :
    "effectiveAnnualYieldPct" ∉ bondCalculationResultFields ∧
      (calculateBondMetrics refDate integrationTestInput).isOk = true :=
  ⟨by decide, by decide⟩

/-- A validated near-par discount bond: face 1000, rate 5 %, price
999.9999999 (< face), 1 year, annual coupons. -/
def nearParDiscountInput : BondCalculationInput :=
  ⟨.num 1000, .num 5, .num (9999999999 / 10000000), .num 1, "annual", none⟩

/-- C2 counterexample: on a validated discount bond priced 10⁻⁷ below
par, the 6-decimal rounding collapses `ytmPct` and `currentYieldPct` to
the same value 5, so `ytmPct > currentYieldPct` fails even though the
trading status is `discount`. -/
theorem c2_counterexample :
    validateBondInput (fun _ => true) nearParDiscountInput = [] ∧
      nearParDiscountInput.marketPrice.toQ <
        nearParDiscountInput.faceValue.toQ ∧
      (calculateBondMetrics refDate nearParDiscountInput).toOption.map
        (fun r => (r.tradingStatus, r.ytmPct, r.currentYieldPct)) =
        some (TradingStatus.discount, 5, 5) ∧
      (calculateBondMetrics refDate nearParDiscountInput).toOption.map
        (fun r => decide (r.currentYieldPct < r.ytmPct)) = some false :=
  ⟨by decide, by decide, by decide, by decide⟩

/-- C2 (amended): for every validated input with a positive period count,
market price < face value gives trading status `discount`, market price >
face value gives `premium`, and market price = face value gives `par`
with a premium/discount amount of 0.  (The strict yield inequalities of
the original claim do not survive the 6-decimal rounding of `ytmPct` and
`currentYieldPct`, which can make the two returned percentages equal
arbitrarily close to par.) -/
theorem c2_trading_status_classification
    (input : BondCalculationInput) (validDate : String → Bool)
    (settlement : CalDate)
    (hv : validateBondInput validDate input = [])
    (hN : 0 < totalPeriodsOf input) :
    (input.marketPrice.toQ < input.faceValue.toQ →
      (calculateBondMetrics settlement input).toOption.map
        (fun r => r.tradingStatus) = some TradingStatus.discount) ∧
    (input.faceValue.toQ < input.marketPrice.toQ →
      (calculateBondMetrics settlement input).toOption.map
        (fun r => r.tradingStatus) = some TradingStatus.premium) ∧
    (input.marketPrice.toQ = input.faceValue.toQ →
      (calculateBondMetrics settlement input).toOption.map
        (fun r => (r.tradingStatus, r.premiumDiscountAmount)) =
        some (TradingStatus.par, 0)) := by
  rw [calculateBondMetrics_ok settlement input hN]
  refine ⟨fun h => ?_, fun h => ?_, fun h => ?_⟩ <;>
    simp only [Except.toOption, Option.map_some', Option.some.injEq,
      buildResult]
  · rw [if_neg (by linarith), if_pos (by linarith)]
  · rw [if_pos (by linarith)]
  · rw [if_neg (by linarith), if_neg (by linarith)]
    have h0 : input.marketPrice.toQ - input.faceValue.toQ = 0 := by linarith
    rw [h0]
    have : round2 0 = 0 := by decide
    rw [this]

/-- A validated par zero-coupon bond: face 1000, rate 0 %, price 1000,
1 year, annual coupons. -/
def parZeroCouponInput : BondCalculationInput :=
  ⟨.num 1000, .num 0, .num 1000, .num 1, "annual", none⟩

/-- Witness for the amended C2 theorem at a concrete validated par input. -/
theorem c2_witness :
    validateBondInput (fun _ => true) parZeroCouponInput = [] ∧
      0 < totalPeriodsOf parZeroCouponInput ∧
      (calculateBondMetrics refDate parZeroCouponInput).toOption.map
        (fun r => (r.tradingStatus, r.premiumDiscountAmount)) =
        some (TradingStatus.par, 0) :=
  ⟨by decide, by decide,
    (c2_trading_status_classification parZeroCouponInput (fun _ => true)
      refDate (by decide) (by decide)).2.2 (by decide)⟩

/-- A validated par bond whose per-period coupon 1.003 has more than two
decimals: face 100.3, rate 1 %, price 100.3, 2 years, annual coupons. -/
def threeDecimalCouponInput : BondCalculationInput :=
  ⟨.num (1003 / 10), .num 1, .num (1003 / 10), .num 2, "annual", none⟩

/-- C3 counterexample: with coupon 1.003, the returned
`totalInterestEarned` is `round2(1.003 × 2) = 2.01`, while the returned
`couponPayment` field is `round2(1.003) = 1`, and `1 × 2 = 2 ≠ 2.01`:
the two result fields do not satisfy the claimed exact product. -/
theorem c3_counterexample :
    validateBondInput (fun _ => true) threeDecimalCouponInput = [] ∧
      (calculateBondMetrics refDate threeDecimalCouponInput).toOption.map
        (fun r => (r.totalInterestEarned, r.couponPayment, r.totalPeriods)) =
        some (201 / 100, 1, 2) ∧
      (201 / 100 : ℚ) ≠ 1 * ((2 : ℤ) : ℚ) :=
  ⟨by decide, by decide, by decide⟩

/-- C3 (amended): for every validated input with a positive period count,
`totalInterestEarned` equals `round2` of the *unrounded* per-period coupon
payment times the period count.  (The original claim's product of the
*returned, already rounded* `couponPayment` field with `totalPeriods` can
differ from `totalInterestEarned` by the rounding.) -/
theorem c3_totalInterestEarned
    (input : BondCalculationInput) (validDate : String → Bool)
    (settlement : CalDate)
    (hv : validateBondInput validDate input = [])
    (hN : 0 < totalPeriodsOf input) :
    (calculateBondMetrics settlement input).toOption.map
      (fun r => r.totalInterestEarned) =
      some (round2 (couponPaymentOf input *
        ((totalPeriodsOf input : ℤ) : ℚ))) := by
  rw [calculateBondMetrics_ok settlement input hN]
  rfl

/-- A validated par bond: face 1000, rate 5 %, price 1000, 1 year,
annual coupons. -/
def parOneYearInput : BondCalculationInput :=
  ⟨.num 1000, .num 5, .num 1000, .num 1, "annual", none⟩

/-- Witness for the amended C3 theorem at a concrete validated input. -/
theorem c3_witness :
    validateBondInput (fun _ => true) parOneYearInput = [] ∧
      0 < totalPeriodsOf parOneYearInput ∧
      (calculateBondMetrics refDate parOneYearInput).toOption.map
        (fun r => r.totalInterestEarned) =
        some (round2 (couponPaymentOf parOneYearInput *
          ((totalPeriodsOf parOneYearInput : ℤ) : ℚ))) :=
  ⟨by decide, by decide,
    c3_totalInterestEarned parOneYearInput (fun _ => true) refDate
      (by decide) (by decide)⟩


/-- A validated zero-coupon par bond with two periods: face 1000,
rate 0 %, price 1000, 2 years, annual coupons. -/
def zeroCouponTwoPeriodInput : BondCalculationInput :=
  ⟨.num 1000, .num 0, .num 1000, .num 2, "annual", none⟩

/-- C4 counterexample: on a validated zero-coupon bond the coupon payment
is 0, so every row's `cumulativeInterest` is 0 — the sequence
`[0, 0]` is not strictly increasing. -/
theorem c4_counterexample :
    validateBondInput (fun _ => true) zeroCouponTwoPeriodInput = [] ∧
      (calculateBondMetrics refDate zeroCouponTwoPeriodInput).toOption.map
        (fun r => r.cashFlowSchedule.map fun row =>
          (row.period, row.cumulativeInterest)) =
        some [(1, 0), (2, 0)] ∧
      ¬((0 : ℚ) < 0) :=
  ⟨by decide, by decide, by decide⟩

/-- C4 (amended): for every validated input with a positive period count,
the row for period `t` has `cumulativeInterest = round2(t × couponPayment)`
(with the *unrounded* per-period coupon payment), and the
`cumulativeInterest` column is nondecreasing in the period index.  (Strict
increase fails when the coupon payment is 0 — or rounds away — and the
claimed product with the *rounded* coupon-payment field fails by the same
rounding gap as C3.) -/
theorem c4_cumulativeInterest
    (input : BondCalculationInput) (validDate : String → Bool)
    (settlement : CalDate)
    (hv : validateBondInput validDate input = [])
    (hN : 0 < totalPeriodsOf input) :
    (calculateBondMetrics settlement input).toOption.map
      (fun r => r.cashFlowSchedule.map fun row =>
        (row.period, row.cumulativeInterest)) =
      some ((List.range (totalPeriodsOf input).toNat).map fun (i : ℕ) =>
        (i + 1, round2 (((i : ℚ) + 1) * couponPaymentOf input))) ∧
    List.Pairwise (fun a b : ℚ => a ≤ b)
      (((calculateBondMetrics settlement input).toOption.map
        (fun r => r.cashFlowSchedule.map fun row =>
          row.cumulativeInterest)).getD []) := by
  rw [calculateBondMetrics_ok settlement input hN]
  constructor
  · simp only [Except.toOption, Option.map_some', Option.some.injEq]
    rw [buildResult_schedule, List.map_map]
    rfl
  · simp only [Except.toOption, Option.map_some', Option.getD_some]
    rw [buildResult_schedule, List.map_map, List.pairwise_map]
    refine (List.pairwise_lt_range _).imp ?_
    intro a b hab
    simp only [Function.comp_apply]
    refine round2_mono (mul_le_mul_of_nonneg_right ?_
      (couponPaymentOf_nonneg validDate input hv))
    have hcast : (a : ℚ) ≤ (b : ℚ) := by exact_mod_cast le_of_lt hab
    linarith

/-- Witness for the amended C4 theorem at a concrete validated input. -/
theorem c4_witness :
    validateBondInput (fun _ => true) parOneYearInput = [] ∧
      0 < totalPeriodsOf parOneYearInput ∧
      ((calculateBondMetrics refDate parOneYearInput).toOption.map
        (fun r => r.cashFlowSchedule.map fun row =>
          (row.period, row.cumulativeInterest)) =
        some ((List.range (totalPeriodsOf parOneYearInput).toNat).map fun (i : ℕ) =>
          (i + 1, round2 (((i : ℚ) + 1) * couponPaymentOf parOneYearInput))) ∧
      List.Pairwise (fun a b : ℚ => a ≤ b)
        (((calculateBondMetrics refDate parOneYearInput).toOption.map
          (fun r => r.cashFlowSchedule.map fun row =>
            row.cumulativeInterest)).getD [])) :=
  ⟨by decide, by decide,
    c4_cumulativeInterest parOneYearInput (fun _ => true) refDate
      (by decide) (by decide)⟩

/-- A validated par bond whose face value 100.005 has more than two
decimals: face 100.005, rate 10 %, price 100.005, 2 years, annual. -/
def threeDecimalFaceInput : BondCalculationInput :=
  ⟨.num (20001 / 200), .num 10, .num (20001 / 200), .num 2, "annual", none⟩

/-- C5 counterexample: with face value 100.005 the non-final row's
`remainingPrincipal` is `round2(100.005) = 100.01`, which is *not* equal
to the face value. -/
theorem c5_counterexample :
    validateBondInput (fun _ => true) threeDecimalFaceInput = [] ∧
      (calculateBondMetrics refDate threeDecimalFaceInput).toOption.map
        (fun r => r.cashFlowSchedule.map fun row => row.remainingPrincipal) =
        some [10001 / 100, 0] ∧
      (10001 / 100 : ℚ) ≠ threeDecimalFaceInput.faceValue.toQ :=
  ⟨by decide, by decide, by decide⟩

/-- C5 (amended): for every validated input with
`round(yearsToMaturity × frequency) ≥ 1`, the schedule has exactly that
many rows; every row's `couponPayment` is the constant
`round2((faceValue × rate/100)/frequency)`; `remainingPrincipal` is
`round2(faceValue)` — the face value *rounded to 2 decimals*, not the raw
face value — in every row except the last, where it is exactly 0. -/
theorem c5_schedule_shape
    (input : BondCalculationInput) (validDate : String → Bool)
    (settlement : CalDate)
    (hv : validateBondInput validDate input = [])
    (hN : 1 ≤ totalPeriodsOf input) :
    (calculateBondMetrics settlement input).toOption.map
      (fun r => r.cashFlowSchedule.length) =
      some (totalPeriodsOf input).toNat ∧
    (calculateBondMetrics settlement input).toOption.map
      (fun r => r.cashFlowSchedule.map fun row =>
        (row.period, row.couponPayment, row.remainingPrincipal)) =
      some ((List.range (totalPeriodsOf input).toNat).map fun i =>
        (i + 1, round2 (couponPaymentOf input),
          if i + 1 = (totalPeriodsOf input).toNat then (0 : ℚ)
          else round2 input.faceValue.toQ)) := by
  rw [calculateBondMetrics_ok settlement input (by omega)]
  constructor
  · simp only [Except.toOption, Option.map_some', Option.some.injEq]
    rw [buildResult_schedule]
    simp
  · simp only [Except.toOption, Option.map_some', Option.some.injEq]
    rw [buildResult_schedule, List.map_map]
    rfl

/-- A validated par bond with two annual periods: face 1000, rate 5 %,
price 1000, 2 years. -/
def parTwoYearInput : BondCalculationInput :=
  ⟨.num 1000, .num 5, .num 1000, .num 2, "annual", none⟩

/-- Witness for the amended C5 theorem at a concrete validated input. -/
theorem c5_witness :
    validateBondInput (fun _ => true) parTwoYearInput = [] ∧
      1 ≤ totalPeriodsOf parTwoYearInput ∧
      ((calculateBondMetrics refDate parTwoYearInput).toOption.map
        (fun r => r.cashFlowSchedule.length) =
        some (totalPeriodsOf parTwoYearInput).toNat ∧
      (calculateBondMetrics refDate parTwoYearInput).toOption.map
        (fun r => r.cashFlowSchedule.map fun row =>
          (row.period, row.couponPayment, row.remainingPrincipal)) =
        some ((List.range (totalPeriodsOf parTwoYearInput).toNat).map fun i =>
          (i + 1, round2 (couponPaymentOf parTwoYearInput),
            if i + 1 = (totalPeriodsOf parTwoYearInput).toNat then (0 : ℚ)
            else round2 parTwoYearInput.faceValue.toQ))) :=
  ⟨by decide, by decide,
    c5_schedule_shape parTwoYearInput (fun _ => true) refDate
      (by decide) (by decide)⟩

/-- Modelled from the spec: "round-half-away-from-zero semantics" at two
decimal places — the nearest multiple of 0.01, with a tie going away from
zero, so a negative half-value rounds downward. -/
def round2HalfAwayFromZeroSpec (v : ℚ) : ℚ :=
  (if 0 ≤ v then (⌊v * 100 + 1 / 2⌋ : ℚ) else -(⌊-v * 100 + 1 / 2⌋ : ℚ)) / 100

/-- A validated discount bond whose premium/discount amount −0.025 is a
negative half-value at 2-decimal granularity: face 1000.025, rate 0 %,
price 1000, 1 year, annual. -/
def negativeHalfDiscountInput : BondCalculationInput :=
  ⟨.num (40001 / 40), .num 0, .num 1000, .num 1, "annual", none⟩

/-- C6 counterexample: the raw premium/discount amount is −0.025, a
negative half-value; the code returns `round2(−0.025) = −0.02` (rounded
toward zero, JS `Math.round` ties toward +∞), while round-half-away-from-
zero semantics would give −0.03. -/
theorem c6_counterexample :
    validateBondInput (fun _ => true) negativeHalfDiscountInput = [] ∧
      (calculateBondMetrics refDate negativeHalfDiscountInput).toOption.map
        (fun r => r.premiumDiscountAmount) = some (-(1 / 50)) ∧
      round2HalfAwayFromZeroSpec (negativeHalfDiscountInput.marketPrice.toQ -
        negativeHalfDiscountInput.faceValue.toQ) = -(3 / 100) ∧
      (-(1 / 50) : ℚ) ≠ -(3 / 100) :=
  ⟨by decide, by decide, by decide, by decide⟩

/-- C6 (amended): every monetary output field is `round2` of its raw
value and both yield percentage fields are `round6` of theirs, where
`round2`/`round6` add the `Number.EPSILON` bias and then round to the
nearest with ties toward +∞ (JS `Math.round`), *not* away from zero: a
negative half-value such as −0.025 rounds toward zero, to −0.02. -/
theorem c6_rounding
    (input : BondCalculationInput) (validDate : String → Bool)
    (settlement : CalDate)
    (hv : validateBondInput validDate input = [])
    (hN : 0 < totalPeriodsOf input) :
    (calculateBondMetrics settlement input).toOption.map
      (fun r => (r.annualCouponAmount, r.couponPayment,
        r.totalInterestEarned, r.premiumDiscountAmount)) =
      some (round2 (annualCouponAmountOf input),
        round2 (couponPaymentOf input),
        round2 (couponPaymentOf input * ((totalPeriodsOf input : ℤ) : ℚ)),
        round2 (input.marketPrice.toQ - input.faceValue.toQ)) ∧
    (calculateBondMetrics settlement input).toOption.map
      (fun r => (r.currentYieldPct, r.ytmPct)) =
      some (round6 (annualCouponAmountOf input / input.marketPrice.toQ * 100),
        round6 (periodicYtmOf input * frequencyPerYearOf input * 100)) ∧
    (calculateBondMetrics settlement input).toOption.map
      (fun r => r.cashFlowSchedule.map fun row =>
        (row.couponPayment, row.cumulativeInterest, row.remainingPrincipal)) =
      some ((List.range (totalPeriodsOf input).toNat).map fun (i : ℕ) =>
        (round2 (couponPaymentOf input),
          round2 (((i : ℚ) + 1) * couponPaymentOf input),
          if i + 1 = (totalPeriodsOf input).toNat then (0 : ℚ)
          else round2 input.faceValue.toQ)) ∧
    round2 (-(1 / 40)) = -(1 / 50) := by
  rw [calculateBondMetrics_ok settlement input hN]
  refine ⟨rfl, rfl, ?_, by decide⟩
  simp only [Except.toOption, Option.map_some', Option.some.injEq]
  rw [buildResult_schedule, List.map_map]
  rfl

/-- Witness for the amended C6 theorem at a concrete validated input. -/
theorem c6_witness :
    validateBondInput (fun _ => true) parTwoYearInput = [] ∧
      0 < totalPeriodsOf parTwoYearInput ∧
      (calculateBondMetrics refDate parTwoYearInput).toOption.map
        (fun r => (r.annualCouponAmount, r.couponPayment,
          r.totalInterestEarned, r.premiumDiscountAmount)) =
      some (round2 (annualCouponAmountOf parTwoYearInput),
        round2 (couponPaymentOf parTwoYearInput),
        round2 (couponPaymentOf parTwoYearInput *
          ((totalPeriodsOf parTwoYearInput : ℤ) : ℚ)),
        round2 (parTwoYearInput.marketPrice.toQ -
          parTwoYearInput.faceValue.toQ)) :=
  ⟨by decide, by decide,
    (c6_rounding parTwoYearInput (fun _ => true) refDate
      (by decide) (by decide)).1⟩


set_option maxHeartbeats 1600000 in
/-- C7: for every input that passes validation but whose rounded period
count is ≤ 0, `calculateBondMetrics` fails with the period-count error
before producing any result; and the validator itself can only ever emit
its six fixed range/enum/date messages — never a period-count violation. -/
theorem c7_degenerate_period_count
    (input : BondCalculationInput) (validDate : String → Bool)
    (settlement : CalDate) :
    (validateBondInput validDate input = [] → totalPeriodsOf input ≤ 0 →
      calculateBondMetrics settlement input =
        Except.error "Total periods must be at least 1.") ∧
    (∀ msg ∈ validateBondInput validDate input, msg ∈ validatorMessages) := by
  constructor
  · intro _ h2
    unfold calculateBondMetrics
    rw [if_pos h2]
  · intro msg hmsg
    unfold validateBondInput at hmsg
    cases faceValueOk input <;> cases couponRateOk input <;>
      cases marketPriceOk input <;> cases yearsOk input <;>
      cases frequencyOk input <;> cases settlementOk validDate input <;>
      simp_all [validatorMessages] <;> tauto

/-- A validated input whose period count rounds to zero: face 1000,
rate 5 %, price 1000, 0.2 years, annual coupons (`round(0.2 × 1) = 0`). -/
def fractionalYearInput : BondCalculationInput :=
  ⟨.num 1000, .num 5, .num 1000, .num (1 / 5), "annual", none⟩

/-- Witness for the C7 theorem: 0.2 years passes validation, rounds to a
period count of 0, and the calculation fails with the period-count error. -/
theorem c7_witness :
    validateBondInput (fun _ => true) fractionalYearInput = [] ∧
      totalPeriodsOf fractionalYearInput ≤ 0 ∧
      calculateBondMetrics refDate fractionalYearInput =
        Except.error "Total periods must be at least 1." :=
  ⟨by decide, by decide,
    (c7_degenerate_period_count fractionalYearInput (fun _ => true)
      refDate).1 (by decide) (by decide)⟩

/-- Modelled from the spec: the sixth validation rule as the spec words
it — "if settlement date is present, it must parse as a valid calendar
date".  Presence is having any string value, the empty string included. -/
def settlementRuleSpec (validDate : String → Bool)
    (input : BondCalculationInput) : Prop :=
  ∀ s, input.settlementDate = some s → validDate s = true

/-- A payload carrying a present-but-empty settlement date string. -/
def emptySettlementInput : BondCalculationInput :=
  ⟨.num 1000, .num 5, .num 950, .num 10, "semi-annual", some ""⟩

/-- C8 counterexample: with a present but *empty* settlement string (which
no parser accepts), the validator returns no violations — JS truthiness
skips the date check for the falsy empty string — so the returned list is
empty although the spec's sixth rule fails: "empty exactly when all rules
pass" does not hold under the spec's reading of rule six. -/
theorem c8_counterexample :
    validateBondInput (fun _ => false) emptySettlementInput = [] ∧
      ¬settlementRuleSpec (fun _ => false) emptySettlementInput :=
  ⟨by decide, fun h => Bool.false_ne_true (h "" rfl)⟩

/-- C8 (amended): `validateBondInput` checks the six rules independently —
each message is in the returned list exactly when its own rule fails,
regardless of every other field — and the list is empty exactly when all
six rules pass, where the sixth rule (following the source's JS truthiness
test) skips an *empty* settlement string as well as an absent one.  The
function is pure: the embedding is a total function of its arguments. -/
theorem c8_validator_characterization (validDate : String → Bool)
    (input : BondCalculationInput) :
    (validateBondInput validDate input = [] ↔
      (faceValueOk input = true ∧ couponRateOk input = true ∧
       marketPriceOk input = true ∧ yearsOk input = true ∧
       frequencyOk input = true ∧ settlementOk validDate input = true)) ∧
    ("Face value must be positive." ∈ validateBondInput validDate input ↔
      faceValueOk input = false) ∧
    ("Annual coupon rate must be zero or greater." ∈
        validateBondInput validDate input ↔
      couponRateOk input = false) ∧
    ("Market price must be positive." ∈ validateBondInput validDate input ↔
      marketPriceOk input = false) ∧
    ("Years to maturity must be positive." ∈
        validateBondInput validDate input ↔
      yearsOk input = false) ∧
    ("Coupon frequency must be annual or semi-annual." ∈
        validateBondInput validDate input ↔
      frequencyOk input = false) ∧
    ("Settlement date is invalid." ∈ validateBondInput validDate input ↔
      settlementOk validDate input = false) := by
  refine ⟨validateBondInput_eq_nil_iff validDate input, ?_, ?_, ?_, ?_, ?_, ?_⟩ <;>
  · unfold validateBondInput
    cases faceValueOk input <;> cases couponRateOk input <;>
      cases marketPriceOk input <;> cases yearsOk input <;>
      cases frequencyOk input <;> cases settlementOk validDate input <;>
      simp

/-- C9: the yield solver is a pure, deterministic function — two calls on
identical argument tuples return identical results (there is no hidden
state or randomness anywhere in its definition). -/
theorem c9_solver_deterministic
    (marketPrice couponPayment faceValue : ℚ) (periods : ℕ)
    (frequencyPerYear couponRateDecimal : ℚ)
    (marketPrice' couponPayment' faceValue' : ℚ) (periods' : ℕ)
    (frequencyPerYear' couponRateDecimal' : ℚ)
    (h : (marketPrice, couponPayment, faceValue, periods, frequencyPerYear,
          couponRateDecimal) =
        (marketPrice', couponPayment', faceValue', periods',
          frequencyPerYear', couponRateDecimal')) :
    solvePeriodicYtm marketPrice couponPayment faceValue periods
        frequencyPerYear couponRateDecimal =
      solvePeriodicYtm marketPrice' couponPayment' faceValue' periods'
        frequencyPerYear' couponRateDecimal' := by
  simp only [Prod.mk.injEq] at h
  obtain ⟨rfl, rfl, rfl, rfl, rfl, rfl⟩ := h
  rfl

/-- Witness for the C9 theorem at the integration-test solver arguments. -/
theorem c9_witness :
    ((950 : ℚ), (25 : ℚ), (1000 : ℚ), (20 : ℕ), (2 : ℚ), (1 / 20 : ℚ)) =
      ((950 : ℚ), (25 : ℚ), (1000 : ℚ), (20 : ℕ), (2 : ℚ), (1 / 20 : ℚ)) ∧
    solvePeriodicYtm 950 25 1000 20 2 (1 / 20) =
      solvePeriodicYtm 950 25 1000 20 2 (1 / 20) :=
  ⟨rfl, c9_solver_deterministic 950 25 1000 20 2 (1 / 20)
    950 25 1000 20 2 (1 / 20) rfl⟩

/-- Every `some` result of the Newton phase stays above −0.999999: the
initial point is assumed above it, and every accepted `next` passed the
`next ≤ -0.999999` guard. -/
lemma newtonIter_some_bound (marketPrice couponPayment faceValue : ℚ)
    (periods : ℕ) :
    ∀ (fuel : ℕ) (x r : ℚ), -(999999 / 1000000 : ℚ) < x →
      newtonIter marketPrice couponPayment faceValue periods fuel x = some r →
      -(999999 / 1000000 : ℚ) < r := by
  intro fuel
  induction fuel with
  | zero => intro x r _ h; simp [newtonIter] at h
  | succ m ih =>
    intro x r hx h
    simp only [newtonIter] at h
    split_ifs at h with h1 h2 h3 h4
    all_goals first
      | (cases h; exact hx)
      | (cases h; done)
      | (cases h; push_neg at h3; exact h3.1)
      | (push_neg at h3; exact ih _ r h3.1 h)

/-- The bracket-expansion loop only ever doubles a `high` that is at
least 1, so its result is at least 1. -/
lemma expandLoop_ge_one (marketPrice couponPayment faceValue : ℚ)
    (periods : ℕ) (fLow : ℚ) :
    ∀ (fuel : ℕ) (high fHigh : ℚ), 1 ≤ high →
      1 ≤ expandLoop marketPrice couponPayment faceValue periods fLow fuel
        high fHigh := by
  intro fuel
  induction fuel with
  | zero => intro high fHigh h; simpa [expandLoop] using h
  | succ m ih =>
    intro high fHigh h
    simp only [expandLoop]
    split_ifs with hc
    · exact ih (2 * high) _ (by linarith)
    · exact h

/-- Bisection keeps the invariant −0.99 ≤ low < high, and every value it
can return is a midpoint of such a bracket, hence above −0.99. -/
lemma bisectLoop_bound (marketPrice couponPayment faceValue : ℚ)
    (periods : ℕ) :
    ∀ (fuel : ℕ) (low high fLow : ℚ), -(99 / 100 : ℚ) ≤ low → low < high →
      -(99 / 100 : ℚ) <
        bisectLoop marketPrice couponPayment faceValue periods fuel low high
          fLow := by
  intro fuel
  induction fuel with
  | zero =>
    intro low high fLow h1 h2
    simp only [bisectLoop]
    linarith
  | succ m ih =>
    intro low high fLow h1 h2
    simp only [bisectLoop]
    split_ifs with hf hs
    · linarith
    · exact ih low ((low + high) / 2) fLow h1 (by linarith)
    · exact ih ((low + high) / 2) high _ (by linarith) (by linarith)

/-- C10: for positive prices and face value, a non-negative coupon and at
least one period, the solver's result is strictly greater than −1 (in the
exact-rational model every value is finite), so `1 + r > 0` and the
annualized YTM is well-defined.  The bound is in fact structural: Newton
starts at `max(-0.95, couponRate/frequency)` and only accepts iterates in
(−0.999999, 10], and bisection brackets never drop below −0.99. -/
theorem c10_solver_range (marketPrice couponPayment faceValue : ℚ)
    (periods : ℕ) (frequencyPerYear couponRateDecimal : ℚ)
    (hn : 1 ≤ periods) (hP : 0 < marketPrice) (hF : 0 < faceValue)
    (hC : 0 ≤ couponPayment) :
    -1 < solvePeriodicYtm marketPrice couponPayment faceValue periods
        frequencyPerYear couponRateDecimal ∧
    0 < 1 + solvePeriodicYtm marketPrice couponPayment faceValue periods
        frequencyPerYear couponRateDecimal := by
  suffices h : -1 < solvePeriodicYtm marketPrice couponPayment faceValue
      periods frequencyPerYear couponRateDecimal from ⟨h, by linarith⟩
  unfold solvePeriodicYtm
  have hx0 : -(999999 / 1000000 : ℚ) <
      max (-(19 / 20 : ℚ)) (couponRateDecimal / frequencyPerYear) :=
    lt_of_lt_of_le (by norm_num) (le_max_left _ _)
  rcases hm : newtonIter marketPrice couponPayment faceValue periods 50
      (max (-(19 / 20 : ℚ)) (couponRateDecimal / frequencyPerYear)) with _ | r
  · simp only [hm]
    have hhigh := expandLoop_ge_one marketPrice couponPayment faceValue
      periods
      (priceFromPeriodicYield (-(99 / 100)) couponPayment faceValue periods -
        marketPrice) 20 1
      (priceFromPeriodicYield 1 couponPayment faceValue periods - marketPrice)
      le_rfl
    have hb := bisectLoop_bound marketPrice couponPayment faceValue periods
      200 (-(99 / 100))
      (expandLoop marketPrice couponPayment faceValue periods
        (priceFromPeriodicYield (-(99 / 100)) couponPayment faceValue periods -
          marketPrice) 20 1
        (priceFromPeriodicYield 1 couponPayment faceValue periods -
          marketPrice))
      (priceFromPeriodicYield (-(99 / 100)) couponPayment faceValue periods -
        marketPrice)
      le_rfl (by linarith)
    linarith
  · simp only [hm]
    have := newtonIter_some_bound marketPrice couponPayment faceValue periods
      50 _ r hx0 hm
    linarith

/-- Witness for the C10 theorem at the integration-test solver arguments. -/
theorem c10_witness :
    ((1 ≤ 20 ∧ (0 : ℚ) < 950 ∧ (0 : ℚ) < 1000 ∧ (0 : ℚ) ≤ 25) ∧
      (-1 < solvePeriodicYtm 950 25 1000 20 2 (1 / 20) ∧
        0 < 1 + solvePeriodicYtm 950 25 1000 20 2 (1 / 20))) :=
  ⟨⟨by norm_num, by norm_num, by norm_num, by norm_num⟩,
    c10_solver_range 950 25 1000 20 2 (1 / 20) (by norm_num) (by norm_num)
      (by norm_num) (by norm_num)⟩

end

end BondYield
